import Mathlib

/-
Verification of the collaborative-filtering recommender in
src/recommendmovie.py.

The Python code is shallowly embedded as follows:
- Python dicts become association lists (`List (key × value)`) with
  first-match lookup and in-place update, which preserves the insertion
  order semantics of Python dicts.  Python sets whose elements are only
  tested for membership become lists with add-if-absent.
- Python floats become real numbers (`ℝ`); the CSV-level rating values,
  which are exact decimals, are kept in `ℚ` where the claims only concern
  data plumbing, so that the corresponding theorems are decidable.
- A Python function that can raise `ZeroDivisionError` becomes a function
  into `Except Unit _`; a function whose only division is guarded in the
  source stays total.
- The random draw of `random()` in the cross-validation sampling is an
  oracle passed in explicitly.
-/

set_option autoImplicit false

namespace RecommendMovie

variable {α : Type} {γ : Type} {U : Type} {M : Type} {R : Type}

/-- First-match lookup in an association list (Python `d[k]` / `k in d`,
for dicts, which have unique keys). -/
def vlookup [DecidableEq α] (v : List (α × R)) (k : α) : Option R :=
  match v with
  | [] => none
  | p :: rest => if p.1 = k then some p.2 else vlookup rest k

/-- Python `d[k] = v`: replace in place if the key is present, else append
(insertion order of Python dicts). -/
def dinsert [DecidableEq α] (k : α) (x : R) (v : List (α × R)) : List (α × R) :=
  match v with
  | [] => [(k, x)]
  | p :: rest => if p.1 = k then (k, x) :: rest else p :: dinsert k x rest

/-- Python `s.add(u)` for a set used only through membership: add if absent. -/
def sadd [DecidableEq α] (k : α) (s : List α) : List α :=
  if k ∈ s then s else s ++ [k]

/-- A sparse rating vector: item key to real-valued rating. -/
abbrev Vec (α : Type) := List (α × ℝ)

/-- Python `d[k]` on a path where the key is known to be present
(defaulting to 0 keeps the embedding total). -/
noncomputable def vget (v : Vec α) [DecidableEq α] (k : α) : ℝ :=
  (vlookup v k).getD 0

/-- Sum of the values of a vector (Python `sum(rating for _, rating in d.items())`). -/
noncomputable def vsum (v : Vec α) : ℝ :=
  (v.map Prod.snd).sum

/-- A catalog entry: `Movie = namedtuple('Movie', ['title', 'genres'])`. -/
structure Movie (γ : Type) where
  title : String
  genres : List γ

/-! ## Similarity / distance library (src lines 163-218) -/

/-- `pearson_correlation(our_vector, other_vector, our_avg, other_avg)`:
cross term over shared keys, the two sum-of-squares factors over each
vector's entire key set, and a guard returning 0 when the pre-sqrt
denominator is exactly 0. -/
noncomputable def pearson_correlation [DecidableEq α]
    (our_vector other_vector : Vec α) (our_avg other_avg : ℝ) : ℝ :=
  let numer := our_vector.foldl
    (fun acc p => if (vlookup other_vector p.1).isSome then
        acc + (p.2 - our_avg) * (vget other_vector p.1 - other_avg)
      else acc) 0
  let denom := ((our_vector.map (fun p => (p.2 - our_avg) ^ 2)).sum) *
    ((other_vector.map (fun p => (p.2 - other_avg) ^ 2)).sum)
  if denom = 0 then 0 else numer / Real.sqrt denom

/-- `cosine_similarity(our_vector, other_vector)`: dot product over shared
keys divided by the product of the full L2 norms; this division is not
guarded in the source, so the embedding fails exactly when the denominator
is 0 (Python `ZeroDivisionError`). -/
noncomputable def cosine_similarity [DecidableEq α]
    (our_vector other_vector : Vec α) : Except Unit ℝ :=
  let numer := our_vector.foldl
    (fun acc p => if (vlookup other_vector p.1).isSome then
        acc + p.2 * vget other_vector p.1
      else acc) 0
  let denom := Real.sqrt ((our_vector.map (fun p => p.2 ^ 2)).sum) *
    Real.sqrt ((other_vector.map (fun p => p.2 ^ 2)).sum)
  if denom = 0 then Except.error () else Except.ok (numer / denom)

/-- `euclidean_distance(our_vector, other_vector)`: square root of the sum
of squared differences over shared keys only. -/
noncomputable def euclidean_distance [DecidableEq α]
    (our_vector other_vector : Vec α) : ℝ :=
  Real.sqrt (((our_vector.filter (fun p => (vlookup other_vector p.1).isSome)).map
    (fun p => (p.2 - vget other_vector p.1) ^ 2)).sum)

/-! ## Genre-weighting module (src lines 268-346) -/

/-- `get_genre_frequencies(user_ratings, movies)`: the number of times each
genre occurs across the user's rated movies (src lines 301-310). -/
def get_genre_frequencies [DecidableEq α] [DecidableEq γ]
    (user_ratings : Vec α) (movies : α → Movie γ) : List (γ × ℕ) :=
  user_ratings.foldl (fun gf p =>
    (movies p.1).genres.foldl (fun gf g =>
      match vlookup gf g with
      | some c => dinsert g (c + 1) gf
      | none => gf ++ [(g, 1)]) gf) []

/-- Count for a genre in a frequency table, 0 when absent
(Python `genre_frequencies.get(genre, 0)`). -/
def gfget [DecidableEq γ] (gf : List (γ × ℕ)) (g : γ) : ℕ :=
  (vlookup gf g).getD 0

/-- `max(freq for _, freq in genre_frequencies.items())`.  Python raises
`ValueError` on an empty table; that corner is never exercised by the
claims, so the embedding returns 0 there. -/
def maxFreq (gf : List (γ × ℕ)) : ℕ :=
  (gf.map Prod.snd).foldl max 0

/-- `sum(freq for _, freq in genre_frequencies.items())`. -/
def sumFreq (gf : List (γ × ℕ)) : ℕ :=
  (gf.map Prod.snd).sum

/-- `term_frequency(genre_frequencies, genre, augmented, boolean, logarithmic)`
(src lines 324-334).  Python raises on an empty table in the augmented and
raw branches; the claims only exercise the boolean and logarithmic policies. -/
noncomputable def term_frequency [DecidableEq γ]
    (gf : List (γ × ℕ)) (g : γ) (augmented boolean logarithmic : Bool) : ℝ :=
  if augmented then 0.5 + 0.5 * ((gfget gf g : ℝ) / (maxFreq gf : ℝ))
  else if boolean then (if (vlookup gf g).isSome then 1 else 0)
  else if logarithmic then Real.log (1 + (gfget gf g : ℝ))
  else (gfget gf g : ℝ) / (sumFreq gf : ℝ)

/-- `inverse_document_frequency(genre, corpus, n, smooth)` (src lines
337-346): 0 when the genre is absent from the corpus (the `KeyError`
branch), else a smoothed or unsmoothed log ratio. -/
noncomputable def inverse_document_frequency [DecidableEq γ]
    (g : γ) (corpus : List (γ × ℕ)) (n : ℕ) (smooth : Bool) : ℝ :=
  match vlookup corpus g with
  | none => 0
  | some total =>
    if smooth then Real.log ((1 + (n : ℝ)) / (total : ℝ))
    else Real.log ((n : ℝ) / (total : ℝ))

/-- `tf_idf(genre_frequencies, genre, corpus, n, ...)` (src lines 313-321). -/
noncomputable def tf_idf [DecidableEq γ]
    (gf : List (γ × ℕ)) (g : γ) (corpus : List (γ × ℕ)) (n : ℕ)
    (augmented boolean logarithmic smooth : Bool) : ℝ :=
  term_frequency gf g augmented boolean logarithmic *
    inverse_document_frequency g corpus n smooth

/-- Vector construction of `get_genre_weight` (src lines 280-290): one pass
over the genres of the primary user's rated movies, extending both tf-idf
vectors whenever a genre is not yet a key of `our_vector`; the compared
user's entries are computed from their own frequency table `gf` but over
the primary user's genre key set. -/
noncomputable def buildGenreVectors [DecidableEq α] [DecidableEq γ]
    (our_user_ratings : Vec α) (movies : α → Movie γ)
    (gf our_genre_frequencies corpus : List (γ × ℕ)) (n : ℕ)
    (augmented boolean logarithmic smooth : Bool) : Vec γ × Vec γ :=
  our_user_ratings.foldl (fun acc p =>
    (movies p.1).genres.foldl (fun acc g =>
      if (vlookup acc.1 g).isSome then acc
      else (acc.1 ++ [(g, tf_idf our_genre_frequencies g corpus n
                          augmented boolean logarithmic smooth)],
            acc.2 ++ [(g, tf_idf gf g corpus n
                          augmented boolean logarithmic smooth)])) acc)
    ([], [])

/-- `get_genre_weight` (src lines 268-298).  The source signature declares
the seventh and eighth positional parameters as `cosine` and `euclidean`;
at its only call site (src lines 254-255) those positions receive the
floats `our_avg` and `other_avg`, so the parameters here are the Python
truthiness of whatever was passed.  The `augmented`/`boolean` policy flags
receive the caller's cosine/euclidean mode flags at that call site. -/
noncomputable def get_genre_weight [DecidableEq α] [DecidableEq γ]
    (our_user_ratings other_user_ratings : Vec α)
    (our_genre_frequencies : List (γ × ℕ)) (movies : α → Movie γ)
    (corpus : List (γ × ℕ)) (n : ℕ)
    (cosine_t euclidean_t augmented boolean logarithmic smooth : Bool) :
    Except Unit ℝ :=
  let gf := get_genre_frequencies other_user_ratings movies
  let vecs := buildGenreVectors our_user_ratings movies gf
    our_genre_frequencies corpus n augmented boolean logarithmic smooth
  if cosine_t then cosine_similarity vecs.1 vecs.2
  else if euclidean_t then Except.ok (euclidean_distance vecs.1 vecs.2)
  else if vecs.1.length = 0 then Except.error ()
  else if vecs.2.length = 0 then Except.error ()
  else Except.ok (pearson_correlation vecs.1 vecs.2
    (vsum vecs.1 / (vecs.1.length : ℝ)) (vsum vecs.2 / (vecs.2.length : ℝ)))

/-! ## Prediction engine (src lines 221-265) -/

/-- Corpus building of `get_rating` (src lines 231-241): for each comparison
user, count each genre of their rated movies once (`seen` guards
per-user duplicates); the corpus maps a genre to the number of users whose
rated movies include it. -/
def buildCorpus [DecidableEq α] [DecidableEq γ]
    (movies : α → Movie γ) (all_other_user_ratings : List (Vec α)) :
    List (γ × ℕ) :=
  all_other_user_ratings.foldl (fun corpus ov =>
    (ov.foldl (fun (acc : List γ × List (γ × ℕ)) p =>
      (movies p.1).genres.foldl (fun acc g =>
        if g ∈ acc.1 then acc
        else (acc.1 ++ [g],
          match vlookup acc.2 g with
          | some c => dinsert g (c + 1) acc.2
          | none => acc.2 ++ [(g, 1)])) acc) ([], corpus)).2) []

/-- The corpus loop of `get_rating` iterates `for mid, _ in
other_user_ratings.items()` (src line 234), which rebinds the function
parameter `mid`: after the loop, `mid` holds the last key of the last
nonempty comparison vector (unchanged when all are empty). -/
def clobberedMid (mid : α) (all_other_user_ratings : List (List (α × R))) : α :=
  all_other_user_ratings.foldl (fun m ov => ov.foldl (fun _ p => p.1) m) mid

/-- `get_rating(mid, movies, our_user_ratings, all_other_user_ratings,
our_avg, use_genres, cosine, euclidean)` (src lines 221-265).  In genre
mode the main loop runs with the clobbered `mid` and the genre weight is
called with the positional-argument wiring of src lines 254-255.  The
final division raises `ZeroDivisionError` exactly when the accumulated
absolute weight is 0; a failing weight computation propagates. -/
noncomputable def get_rating [DecidableEq α] [DecidableEq γ]
    (mid : α) (movies : α → Movie γ) (our_user_ratings : Vec α)
    (all_other_user_ratings : List (Vec α)) (our_avg : ℝ)
    (use_genres cosine euclidean : Bool) : Except Unit ℝ :=
  let corpus := buildCorpus movies all_other_user_ratings
  let n := all_other_user_ratings.length
  let our_genre_frequencies := get_genre_frequencies our_user_ratings movies
  let mid1 := if use_genres then clobberedMid mid all_other_user_ratings else mid
  match all_other_user_ratings.foldlM (fun (acc : ℝ × ℝ) other_user_ratings =>
      if (vlookup other_user_ratings mid1).isSome then
        let other_avg := vsum other_user_ratings / (other_user_ratings.length : ℝ)
        let diff := vget other_user_ratings mid1 - other_avg
        (if use_genres then
          get_genre_weight our_user_ratings other_user_ratings
            our_genre_frequencies movies corpus n
            (decide (our_avg ≠ 0)) (decide (other_avg ≠ 0)) cosine euclidean
            true true
        else if cosine then cosine_similarity our_user_ratings other_user_ratings
        else if euclidean then
          Except.ok (euclidean_distance our_user_ratings other_user_ratings)
        else Except.ok (pearson_correlation our_user_ratings other_user_ratings
          our_avg other_avg)).map
          (fun weight => (acc.1 + diff * weight, acc.2 + |weight|))
      else Except.ok acc) ((0 : ℝ), (0 : ℝ)) with
  | Except.error e => Except.error e
  | Except.ok nd =>
    if nd.2 = 0 then Except.error () else Except.ok (our_avg + nd.1 / nd.2)

/-! ## Cross-validation evaluator (src lines 71-146) -/

/-- The CSV-reading loop of `calculate_rmse_for_each_distance_measure`
(src lines 81-92): fold the rating rows into the per-user rating
dictionaries and the inverted item-to-users index.  Polymorphic in the
rating value type so the data-plumbing claims can be settled decidably. -/
def loadTables [DecidableEq U] [DecidableEq M]
    (rows : List (U × M × R)) :
    List (U × List (M × R)) × List (M × List U) :=
  rows.foldl (fun t row =>
    (match vlookup t.1 row.1 with
     | some inner => dinsert row.1 (dinsert row.2.1 row.2.2 inner) t.1
     | none => t.1 ++ [(row.1, [(row.2.1, row.2.2)])],
     match vlookup t.2 row.2.1 with
     | some s => dinsert row.2.1 (sadd row.1 s) t.2
     | none => t.2 ++ [(row.2.1, [row.1])])) ([], [])

/-- The neighbor population handed to the prediction engine for one
held-out item (src line 112):
`[uid_to_ratings[uid] for uid in mid_to_uids[test_mid]]`. -/
def cvPopulation [DecidableEq U] [DecidableEq M]
    (uid_to_ratings : List (U × List (M × R))) (mid_to_uids : List (M × List U))
    (test_mid : M) : List (List (M × R)) :=
  ((vlookup mid_to_uids test_mid).getD []).map
    (fun uid => (vlookup uid_to_ratings uid).getD [])

/-- The per-mode accumulators of the cross-validation loop
(src lines 94-101). -/
structure CVState where
  cosine_dif : ℝ
  pearson_dif : ℝ
  euclidean_dif : ℝ
  genre_dif : ℝ
  cosine_length : ℤ
  pearson_length : ℤ
  euclidean_length : ℤ
  genre_length : ℤ

/-- The four try/except blocks scoring one held-out sample under each mode
(src lines 117-144): on success the squared difference accumulates into
that mode's error sum; on `ZeroDivisionError` only that mode's sample
count is decremented. -/
noncomputable def cvProcessSample [DecidableEq M] [DecidableEq γ]
    (test_mid : M) (movies : M → Movie γ) (test_ratings : Vec M)
    (all_other_user_ratings : List (Vec M)) (our_avg real_rating : ℝ)
    (st : CVState) : CVState :=
  let st :=
    match get_rating test_mid movies test_ratings all_other_user_ratings
        our_avg false false false with
    | Except.ok v => { st with pearson_dif := st.pearson_dif + (real_rating - v) ^ 2 }
    | Except.error _ => { st with pearson_length := st.pearson_length - 1 }
  let st :=
    match get_rating test_mid movies test_ratings all_other_user_ratings
        our_avg false true false with
    | Except.ok v => { st with cosine_dif := st.cosine_dif + (real_rating - v) ^ 2 }
    | Except.error _ => { st with cosine_length := st.cosine_length - 1 }
  let st :=
    match get_rating test_mid movies test_ratings all_other_user_ratings
        our_avg false false true with
    | Except.ok v => { st with euclidean_dif := st.euclidean_dif + (real_rating - v) ^ 2 }
    | Except.error _ => { st with euclidean_length := st.euclidean_length - 1 }
  match get_rating test_mid movies test_ratings all_other_user_ratings
      our_avg true false false with
  | Except.ok v => { st with genre_dif := st.genre_dif + (real_rating - v) ^ 2 }
  | Except.error _ => { st with genre_length := st.genre_length - 1 }

/-- One iteration of the per-user outer loop (src lines 102-144): skip the
user when their vector has at most one entry or when the random draw
(`draw`, the oracle for `random()`) is at least the sampling ratio;
otherwise add the vector length to every mode's count and run the
leave-one-out inner loop over the user's rated items. -/
noncomputable def cvProcessUser [DecidableEq U] [DecidableEq M] [DecidableEq γ]
    (movies : M → Movie γ) (uid_to_ratings : List (U × Vec M))
    (mid_to_uids : List (M × List U)) (percentFrac draw : ℚ)
    (current_user_ratings : Vec M) (st : CVState) : CVState :=
  if current_user_ratings.length ≤ 1 ∨ draw ≥ percentFrac then st
  else
    let st := { st with
      cosine_length := st.cosine_length + (current_user_ratings.length : ℤ)
      pearson_length := st.pearson_length + (current_user_ratings.length : ℤ)
      euclidean_length := st.euclidean_length + (current_user_ratings.length : ℤ)
      genre_length := st.genre_length + (current_user_ratings.length : ℤ) }
    current_user_ratings.foldl (fun st p =>
      let test_mid := p.1
      let all_other_user_ratings := cvPopulation uid_to_ratings mid_to_uids test_mid
      let real_rating := vget current_user_ratings test_mid
      let test_ratings := current_user_ratings.filter (fun q => decide (q.1 ≠ test_mid))
      let our_avg := vsum test_ratings / (test_ratings.length : ℝ)
      cvProcessSample test_mid movies test_ratings all_other_user_ratings
        our_avg real_rating st) st

/-- `calculate_rmse_for_each_distance_measure(percent, movies)` (src lines
71-146), with the rating rows and the per-user random draws passed in as
explicit inputs.  The final per-mode divisions and square roots are the
unguarded report step of src lines 145-146; the evaluator itself is a
total fold, so a run never aborts on a per-sample division error. -/
noncomputable def calculate_rmse_for_each_distance_measure
    [DecidableEq U] [DecidableEq M] [DecidableEq γ]
    (percent : ℚ) (movies : M → Movie γ) (rows : List (U × M × ℝ))
    (draws : U → ℚ) : ℝ × ℝ × ℝ × ℝ :=
  let percentFrac := percent / 100
  let t := loadTables rows
  let st := t.1.foldl (fun st up =>
    cvProcessUser movies t.1 t.2 percentFrac (draws up.1) up.2 st)
    ⟨0, 0, 0, 0, 0, 0, 0, 0⟩
  (Real.sqrt (st.cosine_dif / (st.cosine_length : ℝ)),
   Real.sqrt (st.pearson_dif / (st.pearson_length : ℝ)),
   Real.sqrt (st.euclidean_dif / (st.euclidean_length : ℝ)),
   Real.sqrt (st.genre_dif / (st.genre_length : ℝ)))

/-! ## Display rounding (src lines 418-420) -/

/-- Python 3 `round` to an integer: round half to even (banker's rounding). -/
def pyRound (q : ℚ) : ℤ :=
  let f := ⌊q⌋
  let r := q - f
  if r < 1 / 2 then f
  else if 1 / 2 < r then f + 1
  else if f % 2 = 0 then f else f + 1

/-- `round_stars(score)`: `round(score * 2) / 2`. -/
def round_stars (score : ℚ) : ℚ :=
  (pyRound (score * 2) : ℚ) / 2

/-! ## Spec-side formulas (written from the claims, for comparison) -/

/-- Spec formula: sum over a vector's entire entry list of the squared
deviation from a given mean. -/
noncomputable def sumSqDev (v : Vec α) (mean : ℝ) : ℝ :=
  (v.map (fun p => (p.2 - mean) ^ 2)).sum

/-- Spec formula: the Pearson cross term, over the keys shared by the two
vectors only. -/
noncomputable def pearsonCross [DecidableEq α]
    (A B : Vec α) (meanA meanB : ℝ) : ℝ :=
  ((A.filter (fun p => (vlookup B p.1).isSome)).map
    (fun p => (p.2 - meanA) * (vget B p.1 - meanB))).sum

/-- Spec formula: sum of squared entries over a vector's entire entry
list (the square of its L2 norm). -/
noncomputable def sqNormSum (v : Vec α) : ℝ :=
  (v.map (fun p => p.2 ^ 2)).sum

/-- Spec notion: a genre's document frequency, 0 when absent from the
corpus. -/
def docFreq [DecidableEq γ] (corpus : List (γ × ℕ)) (g : γ) : ℕ :=
  (vlookup corpus g).getD 0

/-! ## Helper lemmas -/

theorem foldl_ite_add {β : Type} (l : List β) (c : β → Bool) (f : β → ℝ)
    (init : ℝ) :
    l.foldl (fun acc p => if c p then acc + f p else acc) init =
      init + ((l.filter c).map f).sum := by
  induction l generalizing init with
  | nil => simp
  | cons p t ih => by_cases h : c p <;> simp [h, ih, add_assoc]

theorem pyRound_intCast (m : ℤ) : pyRound (m : ℚ) = m := by
  unfold pyRound
  rw [Int.floor_intCast]
  norm_num

theorem pyRound_add_half (k : ℤ) :
    pyRound ((k : ℚ) + 1 / 2) = if k % 2 = 0 then k else k + 1 := by
  have hf : ⌊(k : ℚ) + 1 / 2⌋ = k := by
    rw [add_comm, Int.floor_add_int]
    norm_num [Int.floor_eq_zero_iff, Set.mem_Ico]
  simp only [pyRound, hf]
  have hr : (k : ℚ) + 1 / 2 - k = 1 / 2 := by ring
  rw [hr, if_neg (by norm_num), if_neg (by norm_num)]

theorem cosine_single {γ : Type} [DecidableEq γ] (g : γ) (c : ℝ) (hc : c ≠ 0) :
    cosine_similarity [(g, c)] [(g, c)] = Except.ok 1 := by
  simp only [cosine_similarity, vlookup, vget, List.foldl_cons, List.foldl_nil,
    List.map_cons, List.map_nil, List.sum_cons, List.sum_nil, if_pos rfl,
    Option.isSome_some, if_true, Option.getD_some, add_zero, zero_add]
  rw [Real.sqrt_sq_eq_abs]
  have habs : |c| * |c| ≠ 0 := by positivity
  rw [if_neg habs, abs_mul_abs_self, div_self (mul_ne_zero hc hc)]

/-! ## Claim theorems -/

/-- Claim C9: for every input, `round_stars` returns an exact multiple of
0.5 and is idempotent. -/
theorem round_stars_half_multiple_idempotent (x : ℚ) :
    (∃ k : ℤ, round_stars x = (k : ℚ) / 2) ∧
      round_stars (round_stars x) = round_stars x := by
  constructor
  · exact ⟨pyRound (x * 2), rfl⟩
  · show round_stars ((pyRound (x * 2) : ℚ) / 2) = _
    unfold round_stars
    rw [div_mul_cancel₀ _ (two_ne_zero' ℚ), pyRound_intCast]

/-- Claim C10: on exact quarter-point ties `round_stars` rounds half to
even: at `k/2 + 1/4` it returns the adjacent multiple of 0.5 whose value
in half-star units is even, e.g. 0.25 rounds to 0.0 and 0.75 rounds
to 1.0. -/
theorem round_stars_ties_to_even :
    (∀ k : ℤ, round_stars ((k : ℚ) / 2 + 1 / 4) =
      if k % 2 = 0 then (k : ℚ) / 2 else ((k : ℚ) + 1) / 2) ∧
    round_stars (1 / 4) = 0 ∧ round_stars (3 / 4) = 1 := by
  have h14 : round_stars (1 / 4) = 0 := by
    unfold round_stars
    rw [show (1 / 4 : ℚ) * 2 = ((0 : ℤ) : ℚ) + 1 / 2 by norm_num, pyRound_add_half]
    norm_num
  have h34 : round_stars (3 / 4) = 1 := by
    unfold round_stars
    rw [show (3 / 4 : ℚ) * 2 = ((1 : ℤ) : ℚ) + 1 / 2 by norm_num, pyRound_add_half]
    norm_num
  refine ⟨fun k => ?_, h14, h34⟩
  unfold round_stars
  rw [show ((k : ℚ) / 2 + 1 / 4) * 2 = (k : ℚ) + 1 / 2 by ring, pyRound_add_half]
  by_cases h : k % 2 = 0
  · rw [if_pos h, if_pos h]
  · rw [if_neg h, if_neg h]
    push_cast
    ring

/-- Claim C4: `pearson_correlation` equals the spec formula — cross term
over shared keys divided by the square root of the product of the two
full-vector sums of squared deviations — when that square-root denominator
is nonzero, and 0 when it is exactly 0.  The embedding is total: the only
division in the source is behind the zero guard, so the function never
fails. -/
theorem pearson_matches_spec_formula {α : Type} [DecidableEq α]
    (A B : Vec α) (meanA meanB : ℝ) :
    pearson_correlation A B meanA meanB =
      if Real.sqrt (sumSqDev A meanA * sumSqDev B meanB) = 0 then 0
      else pearsonCross A B meanA meanB /
        Real.sqrt (sumSqDev A meanA * sumSqDev B meanB) := by
  have h0 : 0 ≤ sumSqDev A meanA * sumSqDev B meanB := by
    apply mul_nonneg <;>
      exact List.sum_nonneg (by
        intro x hx
        obtain ⟨p, _, rfl⟩ := List.mem_map.mp hx
        positivity)
  simp only [pearson_correlation, sumSqDev, pearsonCross] at *
  rw [foldl_ite_add, zero_add]
  by_cases hD : (A.map fun p => (p.2 - meanA) ^ 2).sum *
      (B.map fun p => (p.2 - meanB) ^ 2).sum = 0
  · rw [if_pos hD, if_pos ((Real.sqrt_eq_zero h0).mpr hD)]
  · rw [if_neg hD, if_neg (fun hc => hD ((Real.sqrt_eq_zero h0).mp hc))]

/-- Claim C5 counterexample: two vectors sharing zero keys on which the
cosine similarity returns 0 without failing (the claim says it fails with
a division-by-zero error) and Pearson also returns 0 without failing. -/
theorem disjoint_similarity_counterexample :
    cosine_similarity [((0 : ℕ), (1 : ℝ))] [((1 : ℕ), (1 : ℝ))] = Except.ok 0 ∧
      pearson_correlation [((0 : ℕ), (1 : ℝ))] [((1 : ℕ), (1 : ℝ))] 0 0 = 0 := by
  constructor
  · simp only [cosine_similarity, vlookup]
    norm_num
  · simp only [pearson_correlation, vlookup]
    norm_num

/-- Claim C5 amended: for vectors sharing zero keys, Pearson returns 0
without failing, Euclidean distance returns 0, and cosine similarity
returns 0 without failing unless the product of the two full-vector norms
is 0, in which case it fails with a division-by-zero error. -/
theorem disjoint_similarity_amended {α : Type} [DecidableEq α]
    (A B : Vec α) (meanA meanB : ℝ)
    (hdisj : ∀ p ∈ A, (vlookup B p.1).isSome = false) :
    pearson_correlation A B meanA meanB = 0 ∧
      euclidean_distance A B = 0 ∧
      cosine_similarity A B =
        (if Real.sqrt (sqNormSum A) * Real.sqrt (sqNormSum B) = 0
          then Except.error () else Except.ok 0) := by
  have hfil : A.filter (fun p => (vlookup B p.1).isSome) = [] :=
    List.filter_eq_nil_iff.mpr (fun p hp => by simp [hdisj p hp])
  refine ⟨?_, ?_, ?_⟩
  · simp only [pearson_correlation]
    rw [foldl_ite_add, hfil]
    simp
  · simp only [euclidean_distance, hfil]
    simp
  · simp only [cosine_similarity, sqNormSum]
    rw [foldl_ite_add, hfil]
    simp only [List.map_nil, List.sum_nil, add_zero]
    by_cases hd : Real.sqrt ((A.map fun p => p.2 ^ 2).sum) *
        Real.sqrt ((B.map fun p => p.2 ^ 2).sum) = 0
    · rw [if_pos hd, if_pos hd]
    · rw [if_neg hd, if_neg hd, zero_div]

/-- Witness for the amended C5 on concrete disjoint vectors. -/
theorem disjoint_similarity_amended_witness :
    (∀ p ∈ [((0 : ℕ), (2 : ℝ))], (vlookup [((1 : ℕ), (3 : ℝ))] p.1).isSome = false) ∧
      pearson_correlation [((0 : ℕ), (2 : ℝ))] [((1 : ℕ), (3 : ℝ))] 1 1 = 0 ∧
      euclidean_distance [((0 : ℕ), (2 : ℝ))] [((1 : ℕ), (3 : ℝ))] = 0 ∧
      cosine_similarity [((0 : ℕ), (2 : ℝ))] [((1 : ℕ), (3 : ℝ))] =
        (if Real.sqrt (sqNormSum [((0 : ℕ), (2 : ℝ))]) *
            Real.sqrt (sqNormSum [((1 : ℕ), (3 : ℝ))]) = 0
          then Except.error () else Except.ok 0) :=
  ⟨by decide, disjoint_similarity_amended _ _ _ _ (by decide)⟩

/-- Claim C7 counterexample: with corpus `{g2 ↦ 1}` and n = 1, the absent
genre g1 has document frequency 0 ≤ 1 = df(g2), yet idf(g1) = 0 is
strictly below idf(g2) = log 2 — monotone non-increase in document
frequency fails when absent genres (df = 0) are included. -/
theorem idf_monotonicity_counterexample :
    docFreq [((1 : ℕ), 1)] 0 ≤ docFreq [((1 : ℕ), 1)] 1 ∧
      inverse_document_frequency (0 : ℕ) [((1 : ℕ), 1)] 1 true <
        inverse_document_frequency (1 : ℕ) [((1 : ℕ), 1)] 1 true := by
  refine ⟨by decide, ?_⟩
  have h0 : inverse_document_frequency (0 : ℕ) [((1 : ℕ), 1)] 1 true = 0 := rfl
  have h1 : inverse_document_frequency (1 : ℕ) [((1 : ℕ), 1)] 1 true =
      Real.log ((1 + ((1 : ℕ) : ℝ)) / ((1 : ℕ) : ℝ)) := rfl
  rw [h0, h1]
  have : (1 + ((1 : ℕ) : ℝ)) / ((1 : ℕ) : ℝ) = 2 := by norm_num
  rw [this]
  exact Real.log_pos (by norm_num)

/-- Claim C7 amended: for genres present in the corpus (document frequency
at least 1) the smoothed idf is monotonically non-increasing in document
frequency for fixed n, and idf returns 0 (not an error) for every genre
absent from the corpus. -/
theorem idf_monotone_amended {γ : Type} [DecidableEq γ] :
    (∀ (corpus : List (γ × ℕ)) (n : ℕ) (g1 g2 : γ),
        1 ≤ docFreq corpus g1 → docFreq corpus g1 ≤ docFreq corpus g2 →
        inverse_document_frequency g2 corpus n true ≤
          inverse_document_frequency g1 corpus n true) ∧
    (∀ (corpus : List (γ × ℕ)) (n : ℕ) (g : γ),
        vlookup corpus g = none →
        inverse_document_frequency g corpus n true = 0) := by
  constructor
  · intro corpus n g1 g2 h1 h12
    rcases hv1 : vlookup corpus g1 with _ | d1
    · rw [docFreq, hv1] at h1
      simp at h1
    · rcases hv2 : vlookup corpus g2 with _ | d2
      · rw [docFreq, hv1] at h1
        rw [docFreq, docFreq, hv1, hv2] at h12
        simp at h1 h12
        omega
      · rw [docFreq, hv1] at h1
        rw [docFreq, docFreq, hv1, hv2] at h12
        simp only [Option.getD_some] at h1 h12
        simp only [inverse_document_frequency, hv1, hv2, if_pos]
        have hd1 : (0 : ℝ) < (d1 : ℝ) := by exact_mod_cast h1
        have hd2 : (0 : ℝ) < (d2 : ℝ) := by
          have : 1 ≤ d2 := le_trans h1 h12
          exact_mod_cast this
        apply Real.log_le_log (by positivity)
        gcongr
  · intro corpus n g hv
    simp [inverse_document_frequency, hv]

/-- Witness for the amended C7 on a concrete corpus. -/
theorem idf_monotone_amended_witness :
    (1 ≤ docFreq [((1 : ℕ), 1), ((2 : ℕ), 2)] 1 ∧
      docFreq [((1 : ℕ), 1), ((2 : ℕ), 2)] 1 ≤ docFreq [((1 : ℕ), 1), ((2 : ℕ), 2)] 2 ∧
      inverse_document_frequency (2 : ℕ) [((1 : ℕ), 1), ((2 : ℕ), 2)] 5 true ≤
        inverse_document_frequency (1 : ℕ) [((1 : ℕ), 1), ((2 : ℕ), 2)] 5 true) ∧
    (vlookup [((1 : ℕ), 1), ((2 : ℕ), 2)] 3 = none ∧
      inverse_document_frequency (3 : ℕ) [((1 : ℕ), 1), ((2 : ℕ), 2)] 5 true = 0) :=
  ⟨⟨by decide, by decide, idf_monotone_amended.1 _ 5 1 2 (by decide) (by decide)⟩,
    ⟨by decide, idf_monotone_amended.2 _ 5 3 (by decide)⟩⟩

/-- The concrete rating rows used to exhibit the self-inclusion of the
target user in the cross-validation neighbor population. -/
def cvRows : List (ℕ × ℕ × ℚ) := [(1, 10, 5), (1, 11, 3), (2, 10, 4), (2, 11, 1)]

/-- Claim C1: on concrete data where user 1 rated the held-out item 10,
the neighbor population that cross-validation hands to the prediction
engine contains user 1's own full, unmodified vector, including the
held-out rating (10, 5) itself — the claim and spec say the target user
is excluded. -/
theorem cv_population_includes_target_user :
    ((vlookup (loadTables cvRows).1 1).getD []) ∈
        cvPopulation (loadTables cvRows).1 (loadTables cvRows).2 10 ∧
      vlookup ((vlookup (loadTables cvRows).1 1).getD []) 10 = some 5 := by
  decide

/-- Claim C8: a user whose rating vector has at most one entry is skipped
before the leave-one-out inner loop and contributes nothing to any mode's
error sum or sample count, for every sampling ratio and every outcome of
the random draw. -/
theorem cv_skip_singleton_user {U M γ : Type}
    [DecidableEq U] [DecidableEq M] [DecidableEq γ]
    (movies : M → Movie γ) (uid_to_ratings : List (U × Vec M))
    (mid_to_uids : List (M × List U)) (percentFrac draw : ℚ)
    (current_user_ratings : Vec M) (st : CVState)
    (h : current_user_ratings.length ≤ 1) :
    cvProcessUser movies uid_to_ratings mid_to_uids percentFrac draw
      current_user_ratings st = st := by
  unfold cvProcessUser
  rw [if_pos (Or.inl h)]

/-- Witness for C8: a concrete one-rating user is skipped. -/
theorem cv_skip_singleton_user_witness :
    [((0 : ℕ), (5 : ℝ))].length ≤ 1 ∧
      cvProcessUser (fun _ => Movie.mk "t" [0] : ℕ → Movie ℕ)
        ([] : List (ℕ × Vec ℕ)) ([] : List (ℕ × List ℕ)) 1 0
        [((0 : ℕ), (5 : ℝ))] ⟨1, 2, 3, 4, 5, 6, 7, 8⟩ = ⟨1, 2, 3, 4, 5, 6, 7, 8⟩ :=
  ⟨by decide, cv_skip_singleton_user _ _ _ _ _ _ _ (by decide)⟩

/-- Claim C6: one cross-validation sample updates the four modes
independently — a mode whose prediction fails with a division-by-zero
condition has only its own sample count decremented and its error sum
left unchanged, while each other mode is scored from its own result; the
step is a total function, so the run never aborts. -/
theorem cv_per_mode_error_isolation {M γ : Type} [DecidableEq M] [DecidableEq γ]
    (test_mid : M) (movies : M → Movie γ) (test_ratings : Vec M)
    (all_other : List (Vec M)) (our_avg real_rating : ℝ) (st : CVState) :
    cvProcessSample test_mid movies test_ratings all_other our_avg real_rating st =
      { cosine_dif :=
          match get_rating test_mid movies test_ratings all_other our_avg false true false with
          | Except.ok v => st.cosine_dif + (real_rating - v) ^ 2
          | Except.error _ => st.cosine_dif
        pearson_dif :=
          match get_rating test_mid movies test_ratings all_other our_avg false false false with
          | Except.ok v => st.pearson_dif + (real_rating - v) ^ 2
          | Except.error _ => st.pearson_dif
        euclidean_dif :=
          match get_rating test_mid movies test_ratings all_other our_avg false false true with
          | Except.ok v => st.euclidean_dif + (real_rating - v) ^ 2
          | Except.error _ => st.euclidean_dif
        genre_dif :=
          match get_rating test_mid movies test_ratings all_other our_avg true false false with
          | Except.ok v => st.genre_dif + (real_rating - v) ^ 2
          | Except.error _ => st.genre_dif
        cosine_length :=
          match get_rating test_mid movies test_ratings all_other our_avg false true false with
          | Except.ok _ => st.cosine_length
          | Except.error _ => st.cosine_length - 1
        pearson_length :=
          match get_rating test_mid movies test_ratings all_other our_avg false false false with
          | Except.ok _ => st.pearson_length
          | Except.error _ => st.pearson_length - 1
        euclidean_length :=
          match get_rating test_mid movies test_ratings all_other our_avg false false true with
          | Except.ok _ => st.euclidean_length
          | Except.error _ => st.euclidean_length - 1
        genre_length :=
          match get_rating test_mid movies test_ratings all_other our_avg true false false with
          | Except.ok _ => st.genre_length
          | Except.error _ => st.genre_length - 1 } := by
  unfold cvProcessSample
  cases hp : get_rating test_mid movies test_ratings all_other our_avg false false false <;>
    cases hc : get_rating test_mid movies test_ratings all_other our_avg false true false <;>
      cases he : get_rating test_mid movies test_ratings all_other our_avg false false true <;>
        cases hg : get_rating test_mid movies test_ratings all_other our_avg true false false <;>
          rfl

/-- Claim C2: in genre mode the inner measure is not chosen by the
caller's mode flags — whenever the primary average is nonzero (so its
Python truthiness is true), `get_genre_weight` as wired at its call site
takes the cosine branch over the tf-idf vectors regardless of `cosFlag`
and `eucFlag`, and the caller's two mode flags land in the
`augmented`/`boolean` term-frequency policy positions instead. -/
theorem genre_weight_misdispatch {α γ : Type} [DecidableEq α] [DecidableEq γ]
    (our other : Vec α) (ourGF : List (γ × ℕ)) (movies : α → Movie γ)
    (corpus : List (γ × ℕ)) (n : ℕ) (our_avg other_avg : ℝ)
    (cosFlag eucFlag : Bool) (h : our_avg ≠ 0) :
    get_genre_weight our other ourGF movies corpus n
        (decide (our_avg ≠ 0)) (decide (other_avg ≠ 0)) cosFlag eucFlag true true =
      cosine_similarity
        (buildGenreVectors our movies (get_genre_frequencies other movies)
          ourGF corpus n cosFlag eucFlag true true).1
        (buildGenreVectors our movies (get_genre_frequencies other movies)
          ourGF corpus n cosFlag eucFlag true true).2 := by
  have hd : decide (our_avg ≠ 0) = true := decide_eq_true h
  simp [get_genre_weight, hd]

/-- Witness for C2: a concrete call with both mode flags false (the claim
says the inner measure is then Pearson) and a nonzero primary average
reduces to the cosine branch. -/
theorem genre_weight_misdispatch_witness :
    ((3 : ℝ) ≠ 0) ∧
      get_genre_weight ([] : Vec ℕ) ([] : Vec ℕ) ([] : List (ℕ × ℕ))
          (fun _ => Movie.mk "t" [0]) ([] : List (ℕ × ℕ)) 0
          (decide ((3 : ℝ) ≠ 0)) (decide ((0 : ℝ) ≠ 0)) false false true true =
        cosine_similarity
          (buildGenreVectors ([] : Vec ℕ) (fun _ => Movie.mk "t" [0])
            (get_genre_frequencies ([] : Vec ℕ) (fun _ => Movie.mk "t" [0]))
            ([] : List (ℕ × ℕ)) ([] : List (ℕ × ℕ)) 0 false false true true).1
          (buildGenreVectors ([] : Vec ℕ) (fun _ => Movie.mk "t" [0])
            (get_genre_frequencies ([] : Vec ℕ) (fun _ => Movie.mk "t" [0]))
            ([] : List (ℕ × ℕ)) ([] : List (ℕ × ℕ)) 0 false false true true).2 :=
  ⟨by norm_num,
    genre_weight_misdispatch _ _ _ _ _ _ _ _ _ _ (by norm_num)⟩

/-- Claim C3: in genre mode the prediction is not the claimed
`primary_avg + Σ(deviation·weight)/Σ|weight|` over the *target* item.  On
this input the single neighbor rated the target item 0 with rating 5 and
average 3, and the code's own weight is +1, so the claimed result is
3 + (5 - 3)·1/|1| = 5; the code returns 1 because the corpus-building
loop rebinds `mid` to the neighbor's last rated movie (3, rated 1), and
the main loop filters and indexes by that movie instead. -/
theorem get_rating_genre_mid_clobber :
    get_rating (0 : ℕ) (fun _ => Movie.mk "g" [(7 : ℕ)])
        [((1 : ℕ), (4 : ℝ)), (2, 2)] [[((0 : ℕ), (5 : ℝ)), (3, 1)]] 3 true false true =
      Except.ok 1 ∧ (1 : ℝ) ≠ 3 + (5 - 3) * 1 / |(1 : ℝ)| := by
  have hT : tf_idf [((7 : ℕ), 2)] 7 [((7 : ℕ), 1)] 1 false true true true =
      Real.log 2 := by
    simp [tf_idf, term_frequency, inverse_document_frequency, vlookup]
    norm_num
  have hbv : buildGenreVectors [((1 : ℕ), (4 : ℝ)), (2, 2)]
      (fun _ => Movie.mk "g" [(7 : ℕ)]) [((7 : ℕ), 2)] [((7 : ℕ), 2)]
      [((7 : ℕ), 1)] 1 false true true true =
      ([(7, Real.log 2)], [(7, Real.log 2)]) := by
    simp [buildGenreVectors, vlookup, hT]
  have hgw : ∀ be : Bool,
      get_genre_weight [((1 : ℕ), (4 : ℝ)), (2, 2)] [((0 : ℕ), (5 : ℝ)), (3, 1)]
        [((7 : ℕ), 2)] (fun _ => Movie.mk "g" [(7 : ℕ)]) [((7 : ℕ), 1)] 1
        true be false true true true = Except.ok 1 := by
    intro be
    have hgf : get_genre_frequencies [((0 : ℕ), (5 : ℝ)), (3, 1)]
        (fun _ => Movie.mk "g" [(7 : ℕ)]) = [(7, 2)] := rfl
    simp only [get_genre_weight, hgf, hbv, if_true]
    exact cosine_single 7 (Real.log 2) (ne_of_gt (Real.log_pos one_lt_two))
  constructor
  · have hcl : clobberedMid (0 : ℕ) [[((0 : ℕ), (5 : ℝ)), (3, 1)]] = 3 := rfl
    have hbc : buildCorpus (fun _ => Movie.mk "g" [(7 : ℕ)])
        [[((0 : ℕ), (5 : ℝ)), (3, 1)]] = [(7, 1)] := rfl
    have hogf : get_genre_frequencies [((1 : ℕ), (4 : ℝ)), (2, 2)]
        (fun _ => Movie.mk "g" [(7 : ℕ)]) = [(7, 2)] := rfl
    simp only [get_rating, hbc, hogf, hcl, if_true, List.length_cons,
      List.length_nil, zero_add, List.foldlM_cons, List.foldlM_nil]
    simp only [vlookup, vget, vsum, if_pos rfl, Option.isSome_some,
      Option.getD_some, List.map_cons, List.map_nil, List.sum_cons,
      List.sum_nil]
    norm_num
    rw [hgw]
    norm_num [Except.map]
  · norm_num

end RecommendMovie
